import Mathlib

/-!
Verification of the Tetris game-state engine (`src/tetris_game.py`,
`src/constants.py`) against its natural-language specification.

The shallow embedding translates the Python classes `Tetromino`,
`TetrisBoard` and `TetrisGame` into pure Lean functions.  Python's
in-place mutation becomes explicit state passing; the two uses of the
random module (`random.choice` for the next piece, `random.randint` for
the garbage hole column) become explicit inputs (a list of upcoming
piece kinds, a function giving the hole column of each garbage row).
Wall-clock timing (`_can_perform_action`, gravity timers) is outside the
model: an action such as hard drop is embedded as the state change its
code block performs once the debounce gate has admitted it.
-/

namespace Tetris

/-- A cell colour: an RGB triple, as in `constants.Colors`. -/
abbrev Color := Nat × Nat × Nat

/-- A board cell: `none` is empty, `some c` holds a placed block of colour `c`. -/
abbrev Cell := Option Color

abbrev Row := List Cell

abbrev Grid := List Row

/-- `constants.Colors` entries used by the game logic. -/
def Colors.CYAN : Color := (0, 255, 255)
def Colors.BLUE : Color := (0, 0, 255)
def Colors.ORANGE : Color := (255, 165, 0)
def Colors.YELLOW : Color := (255, 255, 0)
def Colors.GREEN : Color := (0, 255, 0)
def Colors.PURPLE : Color := (128, 0, 128)
def Colors.RED : Color := (255, 0, 0)
def Colors.GARBAGE : Color := (128, 128, 128)

/-- `constants.BOARD_WIDTH`. -/
def BOARD_WIDTH : Nat := 10

/-- `constants.BOARD_HEIGHT`. -/
def BOARD_HEIGHT : Nat := 20

/-- The per-rotation shape masks of `constants.TETROMINOS[t]['shape']`,
verbatim from the source (four rotation states, each a list of row
strings; a character other than `.` marks a filled cell). -/
def tetrominoShapes (t : String) : List (List String) :=
  if t = "I" then
    [["....", "IIII", "....", "...."],
     ["..I.", "..I.", "..I.", "..I."],
     ["....", "....", "IIII", "...."],
     [".I..", ".I..", ".I..", ".I.."]]
  else if t = "O" then
    [[".OO.", ".OO.", "....", "...."],
     [".OO.", ".OO.", "....", "...."],
     [".OO.", ".OO.", "....", "...."],
     [".OO.", ".OO.", "....", "...."]]
  else if t = "T" then
    [[".T..", ".TT.", "..T.", "...."],
     [".TT.", "..T.", ".TT.", "...."],
     ["..T.", "..T.", "..T.", "...."],
     ["....", "....", "....", "...."]]
  else if t = "S" then
    [[".SS.", "..S.", "....", "...."],
     ["SS..", "..S.", ".SS.", "...."],
     ["....", ".SS.", "SS..", "...."],
     ["....", "....", "....", "...."]]
  else if t = "Z" then
    [["ZZ..", "..Z.", "....", "...."],
     [".ZZ.", ".ZZ.", "ZZ..", "...."],
     ["....", ".Z..", ".ZZ.", "...."],
     ["....", "....", "....", "...."]]
  else if t = "J" then
    [["J...", ".JJ.", "..J.", "...."],
     ["JJJ.", "..J.", "JJJ.", "...."],
     ["....", "..J.", "...J", "...."],
     ["....", "....", "....", "...."]]
  else if t = "L" then
    [["..L.", ".L..", "....", "...."],
     ["LLL.", ".L..", "..L.", "...."],
     ["....", ".LL.", "LLL.", "...."],
     ["....", "....", "....", "...."]]
  else []

/-- `constants.TETROMINOS[t]['color']`. -/
def tetrominoColor (t : String) : Color :=
  if t = "I" then Colors.CYAN
  else if t = "O" then Colors.YELLOW
  else if t = "T" then Colors.PURPLE
  else if t = "S" then Colors.GREEN
  else if t = "Z" then Colors.RED
  else if t = "J" then Colors.BLUE
  else if t = "L" then Colors.ORANGE
  else (0, 0, 0)

/-- `constants.TETROMINOS[t]['spawn']` — every kind spawns at `(3, 0)`. -/
def tetrominoSpawn (t : String) : Int × Int :=
  if t = "I" then (3, 0)
  else if t = "O" then (3, 0)
  else if t = "T" then (3, 0)
  else if t = "S" then (3, 0)
  else if t = "Z" then (3, 0)
  else if t = "J" then (3, 0)
  else if t = "L" then (3, 0)
  else (3, 0)

/-- The seven piece kinds, `list(TETROMINOS.keys())` in insertion order. -/
def pieceKinds : List String := ["I", "O", "T", "S", "Z", "J", "L"]

/-- The `Tetromino` class: kind, position and rotation state.  The Python
`rotation` field is a `RotationState` enum whose `.value` lies in `0..3`;
we store that value directly. -/
structure Tetromino where
  type : String
  x : Int
  y : Int
  rotation : Nat
  deriving DecidableEq, Repr

/-- `Tetromino.__init__(shape_type, x, y)`: rotation starts at state 0. -/
def Tetromino.make (t : String) (x y : Int) : Tetromino :=
  { type := t, x := x, y := y, rotation := 0 }

/-- `Tetromino.get_shape`: the row strings of the current rotation state. -/
def Tetromino.getShape (p : Tetromino) : List String :=
  (tetrominoShapes p.type).getD p.rotation []

/-- `Tetromino.get_blocks`: absolute cell coordinates of the piece — every
shape character other than `.` and space contributes `(x + col, y + row)`. -/
def Tetromino.getBlocks (p : Tetromino) : List (Int × Int) :=
  p.getShape.enum.flatMap fun ri_row =>
    ri_row.2.data.enum.filterMap fun ci_c =>
      if ci_c.2 ≠ '.' ∧ ci_c.2 ≠ ' ' then
        some (p.x + (ci_c.1 : Int), p.y + (ri_row.1 : Int))
      else none

/-- The `TetrisBoard` class: width and height fields plus the row-major
grid (row 0 on top). -/
structure Board where
  width : Nat
  height : Nat
  grid : Grid
  deriving DecidableEq, Repr

/-- `TetrisBoard.__init__`: an all-empty grid of the given dimensions. -/
def Board.make (w h : Nat) : Board :=
  { width := w, height := h,
    grid := List.replicate h (List.replicate w (none : Cell)) }

/-- `TetrisBoard.is_valid_position`: every block is inside `[0,width)`
horizontally, below-bound `y < height`, and — for `y ≥ 0` only — does not
coincide with a filled grid cell.  Rows above the grid (`y < 0`) are
allowed and not collision-tested. -/
def Board.isValidPosition (b : Board) (p : Tetromino) : Bool :=
  p.getBlocks.all fun xy =>
    if xy.1 < 0 ∨ (b.width : Int) ≤ xy.1 ∨ (b.height : Int) ≤ xy.2 then
      false
    else if 0 ≤ xy.2 then
      ((b.grid.getD xy.2.toNat []).getD xy.1.toNat none).isNone
    else
      true

/-- `TetrisBoard.place_piece`: write the piece colour into every block
whose coordinates lie inside the grid. -/
def Board.placePiece (b : Board) (p : Tetromino) : Board :=
  let c := tetrominoColor p.type
  { b with
    grid := p.getBlocks.foldl (fun g xy =>
      if 0 ≤ xy.2 ∧ xy.2 < (b.height : Int) ∧ 0 ≤ xy.1 ∧ xy.1 < (b.width : Int) then
        g.set xy.2.toNat ((g.getD xy.2.toNat []).set xy.1.toNat (some c))
      else g) b.grid }

/-- A row is clearable iff every cell is occupied
(`all(cell is not None for cell in row)`). -/
def isFullRow (row : Row) : Bool := row.all fun c => c.isSome

/-- The first pass of `TetrisBoard.clear_lines`: indices `y ∈ [0, height)`
whose row is fully occupied, in ascending order. -/
def Board.fullRowIndices (b : Board) : List Nat :=
  (List.range b.height).filter fun y => isFullRow (b.grid.getD y [])

/-- One iteration of the removal loop of `clear_lines`:
`del self.grid[y]` followed by `self.grid.insert(0, empty_row)`. -/
def deleteAndPad (w : Nat) (g : Grid) (y : Nat) : Grid :=
  List.replicate w (none : Cell) :: g.eraseIdx y

/-- `TetrisBoard.clear_lines`: collect the full-row indices, then run the
removal loop over them in reversed order (a `foldr` over the ascending
list processes the largest index first, as `reversed(cleared_lines)`
does), and return the indices in their original ascending order. -/
def Board.clearLines (b : Board) : Board × List Nat :=
  let cleared := b.fullRowIndices
  ({ b with grid := cleared.foldr (fun y g => deleteAndPad b.width g y) b.grid },
   cleared)

/-- One garbage row: `[GARBAGE] * width` with the cell at `hole` set to
empty (`random.randint(0, width-1)` guarantees `hole < width`). -/
def garbageRow (w : Nat) (hole : Nat) : Row :=
  (List.replicate w (some Colors.GARBAGE)).set hole none

/-- `TetrisBoard.add_garbage_lines(count)`: no-op for `count ≤ 0`;
otherwise remove `min count height` rows from the top and append `count`
garbage rows at the bottom, row `i` having its hole at `holes i`. -/
def Board.addGarbageLines (b : Board) (count : Nat) (holes : Nat → Nat) : Board :=
  if count = 0 then b
  else
    { b with
      grid := b.grid.drop (min count b.height) ++
        (List.range count).map fun i => garbageRow b.width (holes i) }

/-- The statistics counter map of `TetrisGame.stats`. -/
structure Stats where
  piecesPlaced : Nat
  singles : Nat
  doubles : Nat
  triples : Nat
  tetrises : Nat
  tSpins : Nat
  garbageSent : Nat
  garbageReceived : Nat
  deriving DecidableEq, Repr

def Stats.zero : Stats :=
  { piecesPlaced := 0, singles := 0, doubles := 0, triples := 0,
    tetrises := 0, tSpins := 0, garbageSent := 0, garbageReceived := 0 }

/-- The mutable state of one `TetrisGame` session.  Wall-clock timing
fields (`last_drop_time`, `drop_interval`, `last_move_time`) are outside
the model; `bag` is the stream of kinds `random.choice` will return, its
head being consumed by each `_generate_next_piece` call. -/
structure GameState where
  board : Board
  score : Nat
  linesCleared : Nat
  level : Nat
  gameOver : Bool
  paused : Bool
  currentPiece : Option Tetromino
  nextPiece : Option Tetromino
  heldPiece : Option Tetromino
  canHold : Bool
  ghostPiece : Option Tetromino
  stats : Stats
  bag : List String
  deriving DecidableEq, Repr

/-- Fuel bounding the descent loops (`_update_ghost_piece`, `_hard_drop`):
enough downward steps to cross the whole board from the piece's current
height.  The Python loops terminate whenever the piece has at least one
block (validity then forces `y < height`); the fuel realises that bound. -/
def descentFuel (b : Board) (p : Tetromino) : Nat :=
  b.height + p.y.natAbs + 2

/-- The `while` loop of `_update_ghost_piece`: move down while the
position is valid, then step back up one row. -/
def dropYAux (b : Board) : Nat → Tetromino → Int
  | 0, p => p.y
  | n + 1, p =>
      if b.isValidPosition p then dropYAux b n { p with y := p.y + 1 }
      else p.y - 1

/-- The resting `y` the ghost-piece descent computes for `p` on `b`. -/
def dropY (b : Board) (p : Tetromino) : Int :=
  dropYAux b (descentFuel b p) p

/-- The ghost piece `_update_ghost_piece` derives from a current piece:
a copy dropped to the last row reachable by consecutive downward steps. -/
def ghostOf (b : Board) (p : Tetromino) : Tetromino :=
  { p with y := dropY b p }

/-- `TetrisGame._update_ghost_piece`. -/
def updateGhost (s : GameState) : GameState :=
  match s.currentPiece with
  | none => { s with ghostPiece := none }
  | some p => { s with ghostPiece := some (ghostOf s.board p) }

/-- `TetrisGame._generate_next_piece`: the next kind from the random
stream, placed at its spawn cell with rotation 0. -/
def generateNextPiece (s : GameState) : GameState :=
  let t := s.bag.headD "I"
  let sp := tetrominoSpawn t
  { s with nextPiece := some (Tetromino.make t sp.1 sp.2), bag := s.bag.tail }

/-- The game-over check ending `_spawn_piece`: the session ends when the
freshly spawned piece's position is invalid. -/
def spawnGameOverCheck (s : GameState) : GameState :=
  match s.currentPiece with
  | some p => if ¬ s.board.isValidPosition p then { s with gameOver := true } else s
  | none => s

/-- `TetrisGame._spawn_piece`: promote the queued piece to active,
generate a new queued piece, re-enable hold, recompute the ghost, and
set `game_over` when the spawned piece's position is invalid. -/
def spawnPiece (s : GameState) : GameState :=
  spawnGameOverCheck
    (updateGhost { generateNextPiece { s with currentPiece := s.nextPiece } with canHold := true })

/-- `TetrisGame._try_move(dx, dy)`: trial shift of the active piece,
committed (with a ghost update) iff the shifted position is valid. -/
def tryMove (s : GameState) (dx dy : Int) : Bool × GameState :=
  match s.currentPiece with
  | none => (false, s)
  | some p =>
      let test := { p with x := p.x + dx, y := p.y + dy }
      if s.board.isValidPosition test then
        (true, updateGhost { s with currentPiece := some test })
      else (false, s)

/-- `constants.WALL_KICK_DATA[group][key]` — `none` models a missing
dictionary key. -/
def wallKickData (group : String) (fromR toR : Nat) : Option (List (Int × Int)) :=
  if group = "JLSTZ" then
    match fromR, toR with
    | 0, 1 => some [(0, 0), (-1, 0), (-1, 1), (0, -2), (-1, -2)]
    | 1, 0 => some [(0, 0), (1, 0), (1, -1), (0, 2), (1, 2)]
    | 1, 2 => some [(0, 0), (1, 0), (1, -1), (0, 2), (1, 2)]
    | 2, 1 => some [(0, 0), (-1, 0), (-1, 1), (0, -2), (-1, -2)]
    | 2, 3 => some [(0, 0), (1, 0), (1, 1), (0, -2), (1, -2)]
    | 3, 2 => some [(0, 0), (-1, 0), (-1, -1), (0, 2), (-1, 2)]
    | 3, 0 => some [(0, 0), (-1, 0), (-1, -1), (0, 2), (-1, 2)]
    | 0, 3 => some [(0, 0), (1, 0), (1, 1), (0, -2), (1, -2)]
    | _, _ => none
  else if group = "I" then
    match fromR, toR with
    | 0, 1 => some [(0, 0), (-2, 0), (1, 0), (-2, -1), (1, 2)]
    | 1, 0 => some [(0, 0), (2, 0), (-1, 0), (2, 1), (-1, -2)]
    | 1, 2 => some [(0, 0), (-1, 0), (2, 0), (-1, 2), (2, -1)]
    | 2, 1 => some [(0, 0), (1, 0), (-2, 0), (1, -2), (-2, 1)]
    | 2, 3 => some [(0, 0), (2, 0), (-1, 0), (2, 1), (-1, -2)]
    | 3, 2 => some [(0, 0), (-2, 0), (1, 0), (-2, -1), (1, 2)]
    | 3, 0 => some [(0, 0), (1, 0), (-2, 0), (1, -2), (-2, 1)]
    | 0, 3 => some [(0, 0), (-1, 0), (2, 0), (-1, 2), (2, -1)]
    | _, _ => none
  else none

/-- The piece group `_try_rotate` keys the kick table with:
`'I' if type == 'I' else 'JLSTZ'`. -/
def pieceGroup (t : String) : String := if t = "I" then "I" else "JLSTZ"

/-- The candidate kick-offset list `_try_rotate` iterates for a piece
kind and a `(from, to)` rotation transition, with the `[(0, 0)]`
fallback for a missing table entry. -/
def kickList (t : String) (fromR toR : Nat) : List (Int × Int) :=
  (wallKickData (pieceGroup t) fromR toR).getD [(0, 0)]

/-- The new rotation value: `(old + (1 if clockwise else -1)) % 4`
(Python's `%` keeps the result in `0..3`; for `old ∈ 0..3` the
counter-clockwise case equals `(old + 3) % 4`). -/
def nextRotation (old : Nat) (clockwise : Bool) : Nat :=
  (old + (if clockwise then 1 else 3)) % 4

/-- `TetrisGame._try_rotate(clockwise)`: compute the new rotation state,
then try each kick offset in table order; the first offset giving a
valid position is committed (position, rotation and ghost updated); if
none succeeds the state is returned unchanged with `false`. -/
def tryRotate (s : GameState) (clockwise : Bool) : Bool × GameState :=
  match s.currentPiece with
  | none => (false, s)
  | some p =>
      let newRot := nextRotation p.rotation clockwise
      let kicks := kickList p.type p.rotation newRot
      match kicks.find? (fun k =>
          s.board.isValidPosition { p with x := p.x + k.1, y := p.y + k.2, rotation := newRot }) with
      | some k =>
          (true, updateGhost { s with
            currentPiece := some { p with x := p.x + k.1, y := p.y + k.2, rotation := newRot } })
      | none => (false, s)

/-- The `while self._try_move_down()` loop of `_hard_drop`, counting the
committed downward steps. -/
def hardDropAux : Nat → GameState → Nat → Nat × GameState
  | 0, s, d => (d, s)
  | n + 1, s, d =>
      let r := tryMove s 0 1
      if r.1 then hardDropAux n r.2 (d + 1) else (d, s)

/-- `TetrisGame._hard_drop`: drop the active piece as far as it goes and
return the distance travelled together with the resulting state. -/
def hardDrop (s : GameState) : Nat × GameState :=
  match s.currentPiece with
  | none => (0, s)
  | some p => hardDropAux (descentFuel s.board p) s 0

/-- `constants.SCORE_VALUES`. -/
def scoreValues (k : String) : Nat :=
  if k = "SINGLE" then 100
  else if k = "DOUBLE" then 300
  else if k = "TRIPLE" then 500
  else if k = "TETRIS" then 800
  else if k = "SOFT_DROP" then 1
  else if k = "HARD_DROP" then 2
  else if k = "T_SPIN_SINGLE" then 800
  else if k = "T_SPIN_DOUBLE" then 1200
  else if k = "T_SPIN_TRIPLE" then 1600
  else 0

/-- `TetrisGame._update_score_for_lines(line_count)`. -/
def updateScoreForLines (s : GameState) (lineCount : Nat) : GameState :=
  if lineCount = 1 then { s with score := s.score + scoreValues "SINGLE" * s.level }
  else if lineCount = 2 then { s with score := s.score + scoreValues "DOUBLE" * s.level }
  else if lineCount = 3 then { s with score := s.score + scoreValues "TRIPLE" * s.level }
  else if lineCount = 4 then { s with score := s.score + scoreValues "TETRIS" * s.level }
  else s

/-- `TetrisGame._update_stats_for_lines(line_count)`. -/
def updateStatsForLines (s : GameState) (lineCount : Nat) : GameState :=
  if lineCount = 1 then { s with stats := { s.stats with singles := s.stats.singles + 1 } }
  else if lineCount = 2 then { s with stats := { s.stats with doubles := s.stats.doubles + 1 } }
  else if lineCount = 3 then { s with stats := { s.stats with triples := s.stats.triples + 1 } }
  else if lineCount = 4 then { s with stats := { s.stats with tetrises := s.stats.tetrises + 1 } }
  else s

/-- `TetrisGame._lock_piece`: place the active piece, count it, clear
lines, update score/stats/level on a clear, then spawn the queued piece.
(The drop-interval recomputation on level-up touches only the timing
fields outside this model.) -/
def lockPiece (s : GameState) : GameState :=
  match s.currentPiece with
  | none => s
  | some p =>
      let b1 := s.board.placePiece p
      let s1 := { s with board := b1,
                         stats := { s.stats with piecesPlaced := s.stats.piecesPlaced + 1 } }
      let cleared := (b1.clearLines).2
      let s2 := { s1 with board := (b1.clearLines).1 }
      let s3 :=
        if cleared.length ≠ 0 then
          let s3a := { s2 with linesCleared := s2.linesCleared + cleared.length }
          let s3b := updateStatsForLines (updateScoreForLines s3a cleared.length) cleared.length
          if s3b.level * 10 ≤ s3b.linesCleared then { s3b with level := s3b.level + 1 }
          else s3b
        else s2
      spawnPiece s3

/-- The hard-drop action of `_handle_input` (lines 301–307): drop, award
`HARD_DROP` points per cell descended, then lock. -/
def hardDropAction (s : GameState) : GameState :=
  let r := hardDrop s
  lockPiece { r.2 with score := r.2.score + r.1 * scoreValues "HARD_DROP" }

/-- `TetrisGame._hold_piece`: blocked unless `can_hold`; first hold
stores the kind and spawns from the queue, later holds swap with the
held kind respawned at its spawn cell; both paths end with
`can_hold := false`. -/
def holdPiece (s : GameState) : GameState :=
  match s.currentPiece with
  | none => s
  | some p =>
      if ¬ s.canHold then s
      else
        match s.heldPiece with
        | none =>
            let s1 := spawnPiece { s with heldPiece := some (Tetromino.make p.type 0 0) }
            { s1 with canHold := false }
        | some old =>
            let sp := tetrominoSpawn old.type
            let s1 := { s with heldPiece := some (Tetromino.make p.type 0 0),
                               currentPiece := some (Tetromino.make old.type sp.1 sp.2) }
            { updateGhost s1 with canHold := false }

/-- The tail of `add_garbage` once the garbage has been inserted and
counted: fail with `game_over` set when the active piece's position
became invalid, otherwise refresh the ghost and succeed. -/
def addGarbageCheck (s1 : GameState) : Bool × GameState :=
  match s1.currentPiece with
  | some p =>
      if ¬ s1.board.isValidPosition p then (false, { s1 with gameOver := true })
      else (true, updateGhost s1)
  | none => (true, updateGhost s1)

/-- `TetrisGame.add_garbage(lines)`: rejected without mutation when the
session is over or `lines ≤ 0`; otherwise insert the garbage, count it,
and either finish with a ghost update (`true`) or — when the active
piece's position became invalid — set `game_over` and return `false`.
`lines` is an `Int` as in Python; `holes` gives each garbage row's gap. -/
def addGarbage (s : GameState) (lines : Int) (holes : Nat → Nat) : Bool × GameState :=
  if s.gameOver ∨ lines ≤ 0 then (false, s)
  else
    addGarbageCheck { s with
      board := s.board.addGarbageLines lines.toNat holes,
      stats := { s.stats with garbageReceived := s.stats.garbageReceived + lines.toNat } }

/-! Concrete fixtures used by the theorems below. -/

/-- The default board `TetrisBoard()`: an empty 10×20 grid. -/
def emptyBoard : Board := Board.make BOARD_WIDTH BOARD_HEIGHT

/-- A session on an empty board with the active I-piece at its spawn
position, the T-piece queued, and a fresh score/level. -/
def c2Init : GameState :=
  { board := emptyBoard, score := 0, linesCleared := 0, level := 1,
    gameOver := false, paused := false,
    currentPiece := some (Tetromino.make "I" 3 0),
    nextPiece := some (Tetromino.make "T" 3 0),
    heldPiece := none, canHold := true,
    ghostPiece := some (ghostOf emptyBoard (Tetromino.make "I" 3 0)),
    stats := Stats.zero, bag := ["S"] }

/-- The state after the hard-drop action on `c2Init`. -/
def c2Final : GameState := hardDropAction c2Init

/-- A fully occupied row of width 10. -/
def fullTestRow : Row := List.replicate 10 (some Colors.GARBAGE)

/-- A row with exactly one occupied cell (so it is not clearable, but its
disappearance is observable). -/
def markerRow : Row := some Colors.GARBAGE :: List.replicate 9 (none : Cell)

/-- A 10×20 board whose rows 18 and 19 are full and whose row 17 holds a
single marker block. -/
def c1Board : Board :=
  { width := 10, height := 20,
    grid := List.replicate 17 (List.replicate 10 (none : Cell)) ++
      [markerRow, fullTestRow, fullTestRow] }

/-- A session on an empty board whose active I-piece has descended to
`y = 18`, so its blocks occupy the bottom row. -/
def c6State : GameState :=
  { c2Init with
    currentPiece := some { Tetromino.make "I" 3 0 with y := 18 },
    ghostPiece := some (ghostOf emptyBoard { Tetromino.make "I" 3 0 with y := 18 }) }

/-- A board with every cell occupied. -/
def fullBoard : Board :=
  { width := 10, height := 20,
    grid := List.replicate 20 (List.replicate 10 (some Colors.GARBAGE)) }

/-- A session whose board is completely full, with an active J-piece at
`(3, 5)` — every wall-kick candidate of a rotation collides. -/
def c8State : GameState :=
  { c2Init with board := fullBoard, currentPiece := some (Tetromino.make "J" 3 5) }

/-- A session with an O-piece active at its spawn cell on an empty board. -/
def c3State : GameState :=
  { c2Init with currentPiece := some (Tetromino.make "O" 3 0),
                ghostPiece := some (ghostOf emptyBoard (Tetromino.make "O" 3 0)) }

/-! ## C1 — `clear_lines` -/

/-- C1: on a board whose rows 18 and 19 are the only full rows (row 17
holding a lone marker block), `clear_lines` reports `[18, 19]` but the
resulting grid still ends in a full row — the second loop iteration
deletes the row at index 18 of the already-shifted grid (the marker row)
instead of the remaining full row, because an empty row was inserted at
the top before the second deletion.  This contradicts the claim (and the
function's own doc string) that every fully-occupied row is removed. -/
theorem c1_clear_lines_wrong_rows :
    (c1Board.clearLines).2 = [18, 19] ∧
    (c1Board.clearLines).1.grid =
      List.replicate 19 (List.replicate 10 (none : Cell)) ++ [fullTestRow] ∧
    isFullRow ((c1Board.clearLines).1.grid.getD 19 []) = true := by
  decide

/-! ## C2 — hard-drop scenario -/

/-- C2, counterexample: on the empty board with the I-piece at spawn the
hard drop descends 18 cells (the piece's blocks lie in row 1 of its 4×4
box, so `y` stops at 18 with blocks on row 19), so the score increases
by `2 × 18 = 36`, not the claimed `2 × 19`. -/
theorem c2_score_not_38 :
    c2Final.score = 2 * 18 ∧ c2Final.score ≠ 2 * 19 := by
  decide

/-- C2, amended: the hard drop locks the I-piece's blocks in the bottom
row (row 19; row 18 stays empty), increases the score by `2 × 18` with
no line-clear bonus (`lines_cleared` stays 0), counts one placed piece,
and promotes the queued piece to active. -/
theorem c2_hard_drop_scenario :
    c2Final.score = 2 * 18 ∧
    c2Final.board.grid.getD 19 [] =
      [none, none, none, some Colors.CYAN, some Colors.CYAN,
       some Colors.CYAN, some Colors.CYAN, none, none, none] ∧
    c2Final.board.grid.getD 18 [] = List.replicate 10 (none : Cell) ∧
    c2Final.linesCleared = 0 ∧
    c2Final.stats.piecesPlaced = 1 ∧
    c2Final.currentPiece = c2Init.nextPiece ∧
    c2Final.gameOver = false := by
  decide

/-! ## C3 — wall-kick offsets and the O-piece -/

/-- Helper: pieces whose `getBlocks` inputs agree have equal blocks. -/
theorem getBlocks_congr (p q : Tetromino) (hx : p.x = q.x) (hy : p.y = q.y)
    (hs : p.getShape = q.getShape) : p.getBlocks = q.getBlocks := by
  unfold Tetromino.getBlocks
  rw [hx, hy, hs]

/-- Helper: validity only depends on the block list. -/
theorem isValidPosition_congr (b : Board) (p q : Tetromino)
    (h : p.getBlocks = q.getBlocks) : b.isValidPosition p = b.isValidPosition q := by
  unfold Board.isValidPosition
  rw [h]

/-- Helper: the O-piece's shape mask is the same in all four rotation states. -/
theorem oShape_constant (r : Nat) (hr : r < 4) :
    (tetrominoShapes "O").getD r [] = [".OO.", ".OO.", "....", "...."] := by
  interval_cases r <;> rfl

/-- Helper: `nextRotation` always lands in `0..3`. -/
theorem nextRotation_lt (r : Nat) (cw : Bool) : nextRotation r cw < 4 :=
  Nat.mod_lt _ (by decide)

/-- C3, counterexample: the kick list `_try_rotate` consults for the
O-piece on the `0→1` transition is the five-offset `JLSTZ` table entry
(`'I' if type == 'I' else 'JLSTZ'` puts `O` in the `JLSTZ` group), not
the identity-only list `[(0, 0)]`. -/
theorem c3_o_kicks_not_identity :
    kickList "O" 0 1 = [(0, 0), (-1, 0), (-1, 1), (0, -2), (-1, -2)] ∧
    kickList "O" 0 1 ≠ [(0, 0)] := by
  decide

/-- C3, amended: all seven piece kinds — the O-piece included — draw
exactly 5 candidate offsets from the table keyed by piece-group
(`I` vs. `JLSTZ`, with `O` in the `JLSTZ` group) for every rotation
transition, in the table's fixed order; and because rotating the O-piece
leaves its shape unchanged, whenever the active O-piece is at a valid
position the first offset `(0, 0)` is the one committed, so the rotation
succeeds with the position left unchanged (behaviourally the identity). -/
theorem c3_kick_table :
    (∀ t ∈ pieceKinds, ∀ (r : Fin 4) (cw : Bool),
      (kickList t r.val (nextRotation r.val cw)).length = 5) ∧
    (∀ (r : Fin 4) (cw : Bool),
      kickList "O" r.val (nextRotation r.val cw) =
        kickList "T" r.val (nextRotation r.val cw)) ∧
    (∀ (s : GameState) (p : Tetromino) (cw : Bool),
      s.currentPiece = some p → p.type = "O" → p.rotation < 4 →
      s.board.isValidPosition p = true →
      (tryRotate s cw).1 = true ∧
      (tryRotate s cw).2.currentPiece =
        some { p with rotation := nextRotation p.rotation cw }) := by
  refine ⟨by decide, by decide, ?_⟩
  intro s p cw hcur htype hrot hvalid
  have hshape : ({ p with x := p.x + 0, y := p.y + 0, rotation := nextRotation p.rotation cw } : Tetromino).getShape = p.getShape := by
    show (tetrominoShapes p.type).getD (nextRotation p.rotation cw) [] =
      (tetrominoShapes p.type).getD p.rotation []
    rw [htype, oShape_constant _ (nextRotation_lt _ _), oShape_constant p.rotation hrot]
  have hvalid0 : s.board.isValidPosition { p with x := p.x + 0, y := p.y + 0, rotation := nextRotation p.rotation cw } = true := by
    rw [isValidPosition_congr s.board _ p (getBlocks_congr _ p (by simp) (by simp) hshape)]
    exact hvalid
  have hhead : ∀ (r : Fin 4) (cw : Bool),
      (kickList "O" r.val (nextRotation r.val cw)).head? = some (0, 0) := by decide
  have hkl : kickList p.type p.rotation (nextRotation p.rotation cw) =
      kickList "O" p.rotation (nextRotation p.rotation cw) := by rw [htype]
  have hfind : (kickList p.type p.rotation (nextRotation p.rotation cw)).find?
      (fun k => s.board.isValidPosition
        { p with x := p.x + k.1, y := p.y + k.2, rotation := nextRotation p.rotation cw }) =
      some (0, 0) := by
    have h0 := hhead ⟨p.rotation, hrot⟩ cw
    rw [hkl]
    cases hl : kickList "O" p.rotation (nextRotation p.rotation cw) with
    | nil => rw [hl] at h0; simp at h0
    | cons a t =>
        rw [hl] at h0
        simp only [List.head?_cons, Option.some.injEq] at h0
        subst h0
        exact List.find?_cons_of_pos _ hvalid0
  have hpiece : ({ p with x := p.x + 0, y := p.y + 0, rotation := nextRotation p.rotation cw } : Tetromino) = { p with rotation := nextRotation p.rotation cw } := by
    simp
  constructor
  · simp [tryRotate, hcur, hfind]
  · simp [tryRotate, hcur, hfind, updateGhost, hpiece]

/-- C3, witness: the O-piece's `0→1` kick list indeed has 5 entries, and
an O-piece at spawn on the empty board rotates successfully in place. -/
theorem c3_kick_table_witness :
    (kickList "O" 0 (nextRotation 0 true)).length = 5 ∧
    (tryRotate c3State true).1 = true := by
  refine ⟨c3_kick_table.1 "O" (by decide) 0 true, ?_⟩
  exact (c3_kick_table.2.2 c3State (Tetromino.make "O" 3 0) true rfl rfl
    (by decide) (by decide)).1

/-! ## C4 — line-clear scoring -/

/-- C4: clearing `k` lines (1 ≤ k ≤ 4) adds exactly the per-line base
score (1→100, 2→300, 3→500, 4→800) times the current level to the score
— in particular a Tetris adds `800 × level`, not four times that. -/
theorem c4_line_clear_scores (s : GameState) (k : Nat) (h1 : 1 ≤ k) (h2 : k ≤ 4) :
    (updateScoreForLines s k).score =
      s.score +
        (if k = 1 then 100 else if k = 2 then 300 else if k = 3 then 500 else 800) *
          s.level := by
  interval_cases k <;> simp [updateScoreForLines, scoreValues]

/-- C4, witness: a Tetris on the fixture session adds `800 × level`. -/
theorem c4_line_clear_scores_witness :
    (updateScoreForLines c2Init 4).score = c2Init.score + 800 * c2Init.level := by
  simpa using c4_line_clear_scores c2Init 4 (by decide) (by decide)

/-! ## C7 — rejected garbage leaves the session unchanged -/

/-- C7: `add_garbage` called on a finished session, or with a
non-positive line count, returns `false` and the session state is
exactly the input state. -/
theorem c7_garbage_rejected (s : GameState) (lines : Int) (holes : Nat → Nat)
    (h : s.gameOver = true ∨ lines ≤ 0) :
    addGarbage s lines holes = (false, s) := by
  rcases h with h | h <;> simp [addGarbage, h]

/-- C7, witness: on a finished session, 3 garbage lines are rejected
without mutation. -/
theorem c7_garbage_rejected_witness :
    addGarbage { c2Init with gameOver := true } 3 (fun _ => 0) =
      (false, { c2Init with gameOver := true }) :=
  c7_garbage_rejected { c2Init with gameOver := true } 3 (fun _ => 0) (Or.inl rfl)

/-! ## C6 — garbage failure after mutation -/

/-- C6: when inserting garbage invalidates the active piece's position,
`add_garbage` returns `false` only after the state has been mutated: the
garbage rows are in the board, `garbage_received` has been incremented,
and `game_over` has been set — a `false` return does not mean the state
is unchanged. -/
theorem c6_garbage_false_after_mutation (s : GameState) (lines : Int)
    (holes : Nat → Nat) (p : Tetromino)
    (hgo : s.gameOver = false) (hl : 0 < lines) (hcur : s.currentPiece = some p)
    (hinv : (s.board.addGarbageLines lines.toNat holes).isValidPosition p = false) :
    addGarbage s lines holes =
      (false,
        { s with
          board := s.board.addGarbageLines lines.toNat holes,
          stats := { s.stats with
            garbageReceived := s.stats.garbageReceived + lines.toNat },
          gameOver := true }) := by
  have hnle : ¬ lines ≤ 0 := by omega
  simp [addGarbage, addGarbageCheck, hgo, hnle, hcur, hinv]

/-- C6, witness: on an empty board with the I-piece resting on the bottom
row, one garbage line (hole in column 0) collides with the piece; the
call returns `false` with the garbage inserted, the statistic
incremented and the session ended. -/
theorem c6_garbage_false_after_mutation_witness :
    addGarbage c6State 1 (fun _ => 0) =
      (false,
        { c6State with
          board := c6State.board.addGarbageLines 1 (fun _ => 0),
          stats := { c6State.stats with
            garbageReceived := c6State.stats.garbageReceived + 1 },
          gameOver := true }) :=
  c6_garbage_false_after_mutation c6State 1 (fun _ => 0)
    { Tetromino.make "I" 3 0 with y := 18 } rfl (by decide) rfl (by decide)

/-! ## C8 — failed rotations change nothing -/

/-- C8: a rotation attempt for which every candidate wall-kick offset
yields an invalid position is rejected: `_try_rotate` returns `false`
and the whole session state — active piece position and rotation, board
included — is exactly the input state. -/
theorem c8_failed_rotation_unchanged (s : GameState) (p : Tetromino) (cw : Bool)
    (hcur : s.currentPiece = some p)
    (hfail : ∀ k ∈ kickList p.type p.rotation (nextRotation p.rotation cw),
      s.board.isValidPosition
        { p with x := p.x + k.1, y := p.y + k.2,
                 rotation := nextRotation p.rotation cw } = false) :
    tryRotate s cw = (false, s) := by
  have hfind : (kickList p.type p.rotation (nextRotation p.rotation cw)).find?
      (fun k => s.board.isValidPosition
        { p with x := p.x + k.1, y := p.y + k.2,
                 rotation := nextRotation p.rotation cw }) = none := by
    apply List.find?_eq_none.mpr
    intro k hk
    simp [hfail k hk]
  simp [tryRotate, hcur, hfind]

/-- C8, witness: on a completely full board, every kick offset of the
J-piece's clockwise rotation collides, and the attempt leaves the
session untouched. -/
theorem c8_failed_rotation_unchanged_witness :
    tryRotate c8State true = (false, c8State) :=
  c8_failed_rotation_unchanged c8State (Tetromino.make "J" 3 5) true rfl (by decide)

/-! ## C9 — hold is blocked until the next spawn -/

/-- Helper: ghost recomputation never touches `can_hold`. -/
theorem updateGhost_canHold (s : GameState) : (updateGhost s).canHold = s.canHold := by
  cases h : s.currentPiece <;> simp [updateGhost, h]

/-- Helper: the spawn game-over check never touches `can_hold`. -/
theorem spawnGameOverCheck_canHold (s : GameState) :
    (spawnGameOverCheck s).canHold = s.canHold := by
  cases h : s.currentPiece with
  | none => simp [spawnGameOverCheck, h]
  | some p =>
      simp only [spawnGameOverCheck, h]
      split <;> rfl

/-- Helper: the garbage-insertion tail never touches `can_hold`. -/
theorem addGarbageCheck_canHold (s : GameState) :
    ((addGarbageCheck s).2).canHold = s.canHold := by
  cases h : s.currentPiece with
  | none => simp [addGarbageCheck, h, updateGhost_canHold]
  | some p =>
      simp only [addGarbageCheck, h]
      split
      · rfl
      · simp [updateGhost_canHold]

/-- Helper: spawning a piece always re-enables hold. -/
theorem spawnPiece_canHold (s : GameState) : (spawnPiece s).canHold = true := by
  unfold spawnPiece
  rw [spawnGameOverCheck_canHold, updateGhost_canHold]

/-- C9: at most one hold per piece lifetime — a completed hold leaves
`can_hold` false; with `can_hold` false the hold handler is a strict
no-op (the whole state, active and held piece included, is returned
unchanged); and of the session operations only a spawn (which ends a
piece lifetime) sets `can_hold` back to true: moves, rotations and
garbage insertion all preserve it. -/
theorem c9_hold_once_per_lifetime (s : GameState) :
    ((∃ p, s.currentPiece = some p) → s.canHold = true → (holdPiece s).canHold = false) ∧
    (s.canHold = false → holdPiece s = s) ∧
    ((spawnPiece s).canHold = true) ∧
    (∀ dx dy, ((tryMove s dx dy).2).canHold = s.canHold) ∧
    (∀ cw, ((tryRotate s cw).2).canHold = s.canHold) ∧
    (∀ lines holes, ((addGarbage s lines holes).2).canHold = s.canHold) := by
  refine ⟨?_, ?_, spawnPiece_canHold s, ?_, ?_, ?_⟩
  · rintro ⟨p, hp⟩ hch
    simp only [holdPiece, hp, hch]
    cases hh : s.heldPiece <;> simp
  · intro hch
    cases hp : s.currentPiece <;> simp [holdPiece, hp, hch]
  · intro dx dy
    cases hp : s.currentPiece with
    | none => simp [tryMove, hp]
    | some p =>
        simp only [tryMove, hp]
        split
        · simp [updateGhost_canHold]
        · rfl
  · intro cw
    cases hp : s.currentPiece with
    | none => simp [tryRotate, hp]
    | some p =>
        simp only [tryRotate, hp]
        split
        · simp [updateGhost_canHold]
        · rfl
  · intro lines holes
    unfold addGarbage
    split
    · rfl
    · rw [addGarbageCheck_canHold]

/-- C9, witness: holding the I-piece in the fixture session clears
`can_hold`, and a hold with `can_hold` already false is the identity. -/
theorem c9_hold_once_per_lifetime_witness :
    (holdPiece c2Init).canHold = false ∧
    holdPiece { c2Init with canHold := false } = { c2Init with canHold := false } :=
  ⟨(c9_hold_once_per_lifetime c2Init).1 ⟨Tetromino.make "I" 3 0, rfl⟩ rfl,
   (c9_hold_once_per_lifetime { c2Init with canHold := false }).2.1 rfl⟩

/-! ## C10 — ghost-piece invariant -/

/-- The ghost invariant as a decidable check: whenever an active piece
exists, the stored ghost is the active piece dropped by
`_update_ghost_piece`'s descent on the current board. -/
def ghostInvB (s : GameState) : Bool :=
  match s.currentPiece with
  | none => true
  | some p => decide (s.ghostPiece = some (ghostOf s.board p))

/-- Helper: `_update_ghost_piece` establishes the ghost invariant. -/
theorem ghostInvB_updateGhost (s : GameState) : ghostInvB (updateGhost s) = true := by
  cases h : s.currentPiece <;> simp [updateGhost, h, ghostInvB]

/-- Helper: setting `game_over` does not disturb the ghost invariant. -/
theorem ghostInvB_gameOverUpdate (s : GameState) (b : Bool) :
    ghostInvB { s with gameOver := b } = ghostInvB s := by
  cases h : s.currentPiece <;> simp [ghostInvB, h]

/-- Helper: setting `can_hold` does not disturb the ghost invariant. -/
theorem ghostInvB_canHoldUpdate (s : GameState) (b : Bool) :
    ghostInvB { s with canHold := b } = ghostInvB s := by
  cases h : s.currentPiece <;> simp [ghostInvB, h]

/-- Helper: `_spawn_piece` establishes the ghost invariant. -/
theorem ghostInvB_spawnPiece (s : GameState) : ghostInvB (spawnPiece s) = true := by
  unfold spawnPiece spawnGameOverCheck
  split
  · split
    · rw [ghostInvB_gameOverUpdate]
      exact ghostInvB_updateGhost _
    · exact ghostInvB_updateGhost _
  · exact ghostInvB_updateGhost _

/-- Helper: the garbage tail establishes the invariant whenever it
succeeds. -/
theorem ghostInvB_addGarbageCheck (s1 : GameState) :
    (addGarbageCheck s1).1 = true → ghostInvB (addGarbageCheck s1).2 = true := by
  unfold addGarbageCheck
  split
  · split
    · intro h
      simp at h
    · intro _
      exact ghostInvB_updateGhost _
  · intro _
    exact ghostInvB_updateGhost _

/-- C10, counterexample: starting from the empty board with the active
I-piece at spawn (ghost resting at `y = 18`), inserting 19 garbage lines
makes the piece's position invalid, and `add_garbage` returns through
the game-over branch without recomputing the ghost: the stored ghost
still has `y = 18`, while the descent on the mutated board would give
`y = -1` — so a board-changing operation returned with the invariant
broken. -/
theorem c10_stale_ghost_on_garbage_top_out :
    ((addGarbage c2Init 19 (fun _ => 0)).2).currentPiece = some (Tetromino.make "I" 3 0) ∧
    ((addGarbage c2Init 19 (fun _ => 0)).2).ghostPiece =
      some { Tetromino.make "I" 3 0 with y := 18 } ∧
    ghostOf ((addGarbage c2Init 19 (fun _ => 0)).2).board (Tetromino.make "I" 3 0) =
      { Tetromino.make "I" 3 0 with y := -1 } ∧
    ghostInvB ((addGarbage c2Init 19 (fun _ => 0)).2) = false := by
  decide

/-- C10, amended: committed moves, committed rotations, holds, spawns,
and garbage insertions that leave the active piece valid all
re-establish the ghost invariant (the ghost is the active piece dropped
by consecutive downward steps on the current board) before returning;
only a garbage insertion that invalidates the active piece — ending the
session — returns with the ghost left stale. -/
theorem c10_ghost_invariant (s : GameState) :
    (∀ dx dy, (tryMove s dx dy).1 = true → ghostInvB (tryMove s dx dy).2 = true) ∧
    (∀ cw, (tryRotate s cw).1 = true → ghostInvB (tryRotate s cw).2 = true) ∧
    (s.canHold = true → ghostInvB (holdPiece s) = true) ∧
    (ghostInvB (spawnPiece s) = true) ∧
    (∀ lines holes, (addGarbage s lines holes).1 = true →
      ghostInvB (addGarbage s lines holes).2 = true) := by
  refine ⟨?_, ?_, ?_, ghostInvB_spawnPiece s, ?_⟩
  · intro dx dy
    cases hp : s.currentPiece with
    | none => simp [tryMove, hp]
    | some p =>
        simp only [tryMove, hp]
        split
        · intro _
          simpa using ghostInvB_updateGhost _
        · intro h
          simp at h
  · intro cw
    cases hp : s.currentPiece with
    | none => simp [tryRotate, hp]
    | some p =>
        simp only [tryRotate, hp]
        split
        · intro _
          simpa using ghostInvB_updateGhost _
        · intro h
          simp at h
  · intro hch
    cases hp : s.currentPiece with
    | none => simp [holdPiece, hp, ghostInvB]
    | some p =>
        cases hh : s.heldPiece with
        | none =>
            simp [holdPiece, hp, hch, hh, ghostInvB_canHoldUpdate, ghostInvB_spawnPiece]
        | some old =>
            simp [holdPiece, hp, hch, hh, ghostInvB_canHoldUpdate, ghostInvB_updateGhost]
  · intro lines holes
    unfold addGarbage
    split
    · intro h
      simp at h
    · exact ghostInvB_addGarbageCheck _

/-- C10, witness: holding on the fixture session re-establishes the
ghost invariant. -/
theorem c10_ghost_invariant_witness : ghostInvB (holdPiece c2Init) = true :=
  (c10_ghost_invariant c2Init).2.2.1 rfl

/-! ## C5 — garbage-line insertion -/

/-- Helper: a row of placed blocks has no empty cell. -/
theorem countP_isNone_replicate (w : Nat) (c : Color) :
    (List.replicate w (some c) : Row).countP (fun x => x.isNone) = 0 := by
  induction w with
  | zero => rfl
  | succ w ih => simp [List.replicate_succ, List.countP_cons, ih]

/-- Helper: a garbage row with its hole inside the row has exactly one
empty cell. -/
theorem garbageRow_one_empty : ∀ (w hole : Nat), hole < w →
    (garbageRow w hole).countP (fun x => x.isNone) = 1 := by
  intro w
  induction w with
  | zero => intro hole h; omega
  | succ w ih =>
      intro hole h
      cases hole with
      | zero =>
          simp [garbageRow, List.replicate_succ, List.countP_cons,
            countP_isNone_replicate]
      | succ hole =>
          have ih2 := ih hole (by omega)
          simp only [garbageRow] at ih2 ⊢
          rw [List.replicate_succ, List.set_cons_succ, List.countP_cons, ih2]
          simp

/-- C5, counterexample: `add_garbage_lines(21)` on the standard 10×20
board removes only `min(21, 20) = 20` rows but appends 21, growing the
grid from 20 to 21 rows — so for counts above the board height the row
count is not preserved, refuting the claim's "for every count k". -/
theorem c5_garbage_grows_board :
    (emptyBoard.addGarbageLines 21 (fun _ => 0)).grid.length = 21 ∧
    emptyBoard.grid.length = 20 ∧ emptyBoard.height = 20 ∧
    (emptyBoard.addGarbageLines 21 (fun _ => 0)).grid.length ≠
      emptyBoard.grid.length := by
  decide

/-- C5, amended: for every count `k ≤ height` (with the grid at its
invariant height), `add_garbage_lines(k)` leaves the board's row count
unchanged, and each of the `k` newly appended bottom rows is the fully
filled garbage row with exactly one empty cell at its hole column. -/
theorem c5_garbage_shape (b : Board) (count : Nat) (holes : Nat → Nat)
    (hlen : b.grid.length = b.height) (hcount : count ≤ b.height) :
    (b.addGarbageLines count holes).grid.length = b.height ∧
    (∀ i, i < count →
      (b.addGarbageLines count holes).grid.getD (b.height - count + i) [] =
        garbageRow b.width (holes i)) ∧
    (∀ i, i < count → holes i < b.width →
      ((b.addGarbageLines count holes).grid.getD (b.height - count + i) []).countP
        (fun x => x.isNone) = 1) := by
  by_cases h0 : count = 0
  · subst h0
    refine ⟨by simp [Board.addGarbageLines, hlen], ?_, ?_⟩
    · intro i hi; omega
    · intro i hi _; omega
  · have hmin : min count b.height = count := Nat.min_eq_left hcount
    have hgrid : (b.addGarbageLines count holes).grid =
        b.grid.drop count ++
          (List.range count).map (fun i => garbageRow b.width (holes i)) := by
      simp [Board.addGarbageLines, h0, hmin]
    have hdlen : (b.grid.drop count).length = b.height - count := by
      simp [hlen]
    have hget : ∀ i, i < count →
        (b.addGarbageLines count holes).grid.getD (b.height - count + i) [] =
          garbageRow b.width (holes i) := by
      intro i hi
      rw [hgrid, List.getD_append_right _ _ _ _ (by rw [hdlen]; omega)]
      have hidx : b.height - count + i - (b.grid.drop count).length = i := by
        rw [hdlen]; omega
      rw [hidx]
      have hilen : i <
          ((List.range count).map (fun i => garbageRow b.width (holes i))).length := by
        simp [hi]
      rw [List.getD_eq_getElem _ _ hilen]
      simp [hi]
    refine ⟨?_, hget, ?_⟩
    · rw [hgrid]
      simp [hlen]
      omega
    · intro i hi hw
      rw [hget i hi]
      exact garbageRow_one_empty _ _ hw

/-- C5, witness: two garbage lines with hole column 3 on the empty board
keep the grid at 20 rows, and the first appended row (index 18) has
exactly one empty cell. -/
theorem c5_garbage_shape_witness :
    (emptyBoard.addGarbageLines 2 (fun _ => 3)).grid.length = emptyBoard.height ∧
    ((emptyBoard.addGarbageLines 2 (fun _ => 3)).grid.getD
        (emptyBoard.height - 2 + 0) []).countP (fun x => x.isNone) = 1 := by
  have h := c5_garbage_shape emptyBoard 2 (fun _ => 3) (by decide) (by decide)
  exact ⟨h.1, h.2.2 0 (by decide) (by decide)⟩

end Tetris
